import Mathlib

/-!
Shallow embedding of the log-analyzer and log-generator scripts:
`analyze-log.py` (format detection, PLC-debug / CSV / tab summarizers,
CLI entry point) and `generate_log.py` (synthetic log line shape).

Strings are modelled as Lean `String` / `List Char`; the Python regexes
used by the scripts are embedded as deterministic character-list matchers
(each regex in the source has disjoint character classes at every
quantifier boundary, so greedy maximal-munch matching coincides with the
backtracking semantics of `re`).  Character classes follow the ASCII
behaviour of the source patterns.
-/

/-- ASCII model of the regex class `\s` (Python `re` whitespace). -/
def isSpaceC (c : Char) : Bool :=
  c == ' ' || c == '\t' || c == '\n' || c == '\r' || c == '\x0b' || c == '\x0c'

/-- ASCII model of the regex class `\w` (word characters). -/
def isWordC (c : Char) : Bool :=
  c.isAlphanum || c == '_'

/-- Model of `str.split(sep)` for a one-character separator. -/
def splitOnChar (sep : Char) : List Char → List (List Char)
  | [] => [[]]
  | c :: t =>
    match splitOnChar sep t with
    | [] => if c == sep then [[], []] else [[c]]
    | h :: rt => if c == sep then [] :: h :: rt else (c :: h) :: rt

/-- Model of `sep.join(parts)`. -/
def joinSep (sep : String) : List String → String
  | [] => ""
  | [x] => x
  | x :: y :: t => x ++ sep ++ joinSep sep (y :: t)

/-- Model of `'AMHS' in s` (substring containment). -/
def subSearch (p : List Char) : List Char → Bool
  | [] => p.isPrefixOf []
  | c :: t => p.isPrefixOf (c :: t) || subSearch p t

/-- Matcher for the time half `\d{2}:\d{2}:\d{2}` of the detection regex. -/
def matchTimeAt : List Char → Bool
  | h1 :: h2 :: c1 :: m1 :: m2 :: c2 :: s1 :: s2 :: _ =>
    h1.isDigit && h2.isDigit && c1 == ':' && m1.isDigit && m2.isDigit &&
    c2 == ':' && s1.isDigit && s2.isDigit
  | _ => false

/-- Matcher for `\d{4}-\d{2}-\d{2}\s+\d{2}:\d{2}:\d{2}` anchored at the head. -/
def matchDTAt : List Char → Bool
  | y1 :: y2 :: y3 :: y4 :: c1 :: mo1 :: mo2 :: c2 :: d1 :: d2 :: rest =>
    y1.isDigit && y2.isDigit && y3.isDigit && y4.isDigit && c1 == '-' &&
    mo1.isDigit && mo2.isDigit && c2 == '-' && d1.isDigit && d2.isDigit &&
    !(rest.takeWhile isSpaceC).isEmpty && matchTimeAt (rest.dropWhile isSpaceC)
  | _ => false

/-- `re.search` of the date-time pattern: try every start position. -/
def searchDT : List Char → Bool
  | [] => false
  | c :: t => matchDTAt (c :: t) || searchDT t

/-- After an opening `[`, is there a `]` on the same line (`.` does not
cross `\n`)?  Second half of `re.search(r'\[.*\]', sample)`. -/
def brkAfter : List Char → Bool
  | [] => false
  | c :: t => if c == ']' then true else if c == '\n' then false else brkAfter t

/-- `re.search(r'\[.*\]', sample)`: some `[` is followed by `]` with no
intervening newline. -/
def brkSearch : List Char → Bool
  | [] => false
  | c :: t => (c == '[' && brkAfter t) || brkSearch t

/-- `'\n'.join(lines[:10])`: the sample used by the format detector. -/
def sampleOf (lines : List String) : String :=
  joinSep "\n" (lines.take 10)

/-- `detect_format` from `analyze-log.py`: ordered heuristic checks. -/
def detect_format (lines : List String) : String :=
  match lines with
  | [] => "empty"
  | l0 :: rest =>
    if searchDT (sampleOf (l0 :: rest)).data then "plc_debug"
    else if l0.data.contains '\t' ∧ 3 < (splitOnChar '\t' l0.data).length then "tab_separated"
    else if l0.data.contains ',' ∧ 3 < (splitOnChar ',' l0.data).length then "csv"
    else if brkSearch (sampleOf (l0 :: rest)).data ∧
            subSearch "AMHS".data ((sampleOf (l0 :: rest)).data.map Char.toUpper) then "mcs_amhs"
    else "unknown"

example : detect_format [] = "empty" := by rfl
example : detect_format ["2024-01-15 10:00:00 hello"] = "plc_debug" := by decide
example : detect_format ["a,b,c,d,e\n", "1,2,3,4,5\n"] = "csv" := by decide
example : detect_format ["a\tb\tc\td\n"] = "tab_separated" := by decide
example : detect_format ["[AMHS] transfer\n"] = "mcs_amhs" := by decide
example : detect_format ["hello"] = "unknown" := by decide
example : detect_format ["x 2024-01-15\n", "10:00:00 y\n"] = "plc_debug" := by decide

/-- Characters admitted by `[\.\d]*` (fractional-seconds suffix). -/
def isFracC (c : Char) : Bool :=
  c == '.' || c.isDigit

/-- Matcher, anchored at the head of the character list, for the record
pattern of `analyze_plc_debug`:
`(\d{4}-\d{2}-\d{2}\s+\d{2}:\d{2}:\d{2}[\.\d]*)\s+\[([^\]]+)\]\s+(\w+)`.
Returns the three capture groups (timestamp, device, signal). -/
def matchRecordAt (l : List Char) : Option (String × String × String) :=
  match l with
  | y1 :: y2 :: y3 :: y4 :: c1 :: mo1 :: mo2 :: c2 :: d1 :: d2 :: rest =>
    if y1.isDigit && y2.isDigit && y3.isDigit && y4.isDigit && c1 == '-' &&
       mo1.isDigit && mo2.isDigit && c2 == '-' && d1.isDigit && d2.isDigit then
      let ws1 := rest.takeWhile isSpaceC
      if ws1.isEmpty then none else
      match rest.drop ws1.length with
      | h1 :: h2 :: e1 :: mi1 :: mi2 :: e2 :: s1 :: s2 :: rest2 =>
        if h1.isDigit && h2.isDigit && e1 == ':' && mi1.isDigit && mi2.isDigit &&
           e2 == ':' && s1.isDigit && s2.isDigit then
          let frac := rest2.takeWhile isFracC
          let ts := String.mk ([y1, y2, y3, y4, c1, mo1, mo2, c2, d1, d2] ++ ws1 ++
            [h1, h2, e1, mi1, mi2, e2, s1, s2] ++ frac)
          let rest3 := rest2.drop frac.length
          let ws2 := rest3.takeWhile isSpaceC
          if ws2.isEmpty then none else
          match rest3.drop ws2.length with
          | b1 :: rest4 =>
            if b1 == '[' then
              let dev := rest4.takeWhile (fun c => !(c == ']'))
              if dev.isEmpty then none else
              match rest4.drop dev.length with
              | b2 :: rest5 =>
                if b2 == ']' then
                  let ws3 := rest5.takeWhile isSpaceC
                  if ws3.isEmpty then none else
                  let sig := (rest5.drop ws3.length).takeWhile isWordC
                  if sig.isEmpty then none else
                  some (ts, String.mk dev, String.mk sig)
                else none
              | [] => none
            else none
          | [] => none
        else none
      | _ => none
    else none
  | _ => none

/-- `re.search` of the record pattern: first match over start positions. -/
def findRecord : List Char → Option (String × String × String)
  | [] => none
  | c :: t =>
    match matchRecordAt (c :: t) with
    | some r => some r
    | none => findRecord t

example : findRecord "2024-01-15 10:30:45.123 [DEV-001] SignalName = Value\n".data
    = some ("2024-01-15 10:30:45.123", "DEV-001", "SignalName") := by decide
example : findRecord "2024-01-15 10:00:00 [Info] [DEV-1] [Temp] (Integer) : 30\n".data
    = none := by decide
example : findRecord "2025-09-22 13:00:00.000 [Info] [SYSTEM/LINE1/DEV-101] [INPUT:Temperature] (Integer) : 30\n".data
    = none := by decide

/-- `Counter[k] += 1` on an insertion-ordered association list (Python
dicts preserve insertion order; a new key is appended at the end). -/
def bump (k : String) : List (String × Nat) → List (String × Nat)
  | [] => [(k, 1)]
  | (k', n) :: t => if k' = k then (k', n + 1) :: t else (k', n) :: bump k t

/-- Fold a sequence of keys into a counter, starting from `c`. -/
def buildFrom (c : List (String × Nat)) (ks : List String) : List (String × Nat) :=
  ks.foldl (fun a k => bump k a) c

/-- Counter built from a sequence of keys. -/
def buildCounter (ks : List String) : List (String × Nat) :=
  buildFrom [] ks

/-- Total of all counts in a counter. -/
def sumCounts (c : List (String × Nat)) : Nat :=
  (c.map Prod.snd).sum

/-- Stable sort by descending count: the ordering used by
`Counter.most_common` (equal counts keep first-encounter order). -/
def sortByCountDesc (c : List (String × Nat)) : List (String × Nat) :=
  List.insertionSort (fun a b => b.2 ≤ a.2) c

/-- `Counter.most_common(n)`: the `n` largest counts, stably ordered. -/
def mostCommon (n : Nat) (c : List (String × Nat)) : List (String × Nat) :=
  (sortByCountDesc c).take n

example : mostCommon 2 (buildCounter ["A", "B", "A", "C", "B"]) = [("A", 2), ("B", 2)] := by decide

/-- Accumulator state of the `analyze_plc_debug` scanning loop. -/
structure PlcState where
  timestamps : List String
  devices : List (String × Nat)
  signals : List (String × Nat)

/-- One iteration of the `for line in lines` loop of `analyze_plc_debug`:
a non-matching line leaves the state unchanged. -/
def plcStep (st : PlcState) (line : String) : PlcState :=
  match findRecord line.data with
  | none => st
  | some (ts, dev, sig) =>
    ⟨st.timestamps ++ [ts], bump dev st.devices, bump sig st.signals⟩

/-- The full scanning loop of `analyze_plc_debug`. -/
def plcScan (lines : List String) : PlcState :=
  lines.foldl plcStep ⟨[], [], []⟩

example : (plcScan ["2024-01-15 10:30:45.123 [DEV-001] Sig = 1\n",
    "garbage\n", "2024-01-15 10:30:46 [DEV-002] Sig = 2\n"]).devices
    = [("DEV-001", 1), ("DEV-002", 1)] := by decide

/-- Numeric value of an ASCII digit character. -/
def digitVal (c : Char) : Nat :=
  c.toNat - '0'.toNat

/-- Is `c` in the inclusive character range `lo`–`hi`? -/
def inRange (lo hi c : Char) : Bool :=
  decide (lo ≤ c ∧ c ≤ hi)

/-- A parsed `YYYY-MM-DD HH:MM:SS` value. -/
structure DateTimeV where
  year : Nat
  month : Nat
  day : Nat
  hour : Nat
  minute : Nat
  second : Nat
deriving DecidableEq

/-- `strptime` fragment `%Y`: exactly four digits. -/
def pYear : List Char → Option (Nat × List Char)
  | a :: b :: c :: d :: r =>
    if a.isDigit && b.isDigit && c.isDigit && d.isDigit then
      some (digitVal a * 1000 + digitVal b * 100 + digitVal c * 10 + digitVal d, r)
    else none
  | _ => none

/-- `strptime` literal character. -/
def pLit (x : Char) : List Char → Option (List Char)
  | c :: r => if c == x then some r else none
  | [] => none

/-- `strptime` fragment `%m`: alternatives `1[0-2]|0[1-9]|[1-9]` in order. -/
def pMonth : List Char → Option (Nat × List Char)
  | [] => none
  | a :: rest =>
    match rest with
    | b :: r2 =>
      if a == '1' && inRange '0' '2' b then some (10 + digitVal b, r2)
      else if a == '0' && inRange '1' '9' b then some (digitVal b, r2)
      else if inRange '1' '9' a then some (digitVal a, rest)
      else none
    | [] => if inRange '1' '9' a then some (digitVal a, []) else none

/-- `strptime` fragment `%d`: alternatives
`3[0-1]|[1-2]\d|0[1-9]|[1-9]| [1-9]` in order. -/
def pDay : List Char → Option (Nat × List Char)
  | [] => none
  | a :: rest =>
    match rest with
    | b :: r2 =>
      if a == '3' && inRange '0' '1' b then some (30 + digitVal b, r2)
      else if inRange '1' '2' a && b.isDigit then some (digitVal a * 10 + digitVal b, r2)
      else if a == '0' && inRange '1' '9' b then some (digitVal b, r2)
      else if inRange '1' '9' a then some (digitVal a, rest)
      else if a == ' ' && inRange '1' '9' b then some (digitVal b, r2)
      else none
    | [] => if inRange '1' '9' a then some (digitVal a, []) else none

/-- `strptime` fragment `%H`: alternatives `2[0-3]|[0-1]\d|\d` in order. -/
def pHour : List Char → Option (Nat × List Char)
  | [] => none
  | a :: rest =>
    match rest with
    | b :: r2 =>
      if a == '2' && inRange '0' '3' b then some (20 + digitVal b, r2)
      else if inRange '0' '1' a && b.isDigit then some (digitVal a * 10 + digitVal b, r2)
      else if a.isDigit then some (digitVal a, rest)
      else none
    | [] => if a.isDigit then some (digitVal a, []) else none

/-- `strptime` fragment `%M`: alternatives `[0-5]\d|\d` in order. -/
def pMin : List Char → Option (Nat × List Char)
  | [] => none
  | a :: rest =>
    match rest with
    | b :: r2 =>
      if inRange '0' '5' a && b.isDigit then some (digitVal a * 10 + digitVal b, r2)
      else if a.isDigit then some (digitVal a, rest)
      else none
    | [] => if a.isDigit then some (digitVal a, []) else none

/-- `strptime` fragment `%S`: alternatives `6[0-1]|[0-5]\d|\d` in order. -/
def pSec : List Char → Option (Nat × List Char)
  | [] => none
  | a :: rest =>
    match rest with
    | b :: r2 =>
      if a == '6' && inRange '0' '1' b then some (60 + digitVal b, r2)
      else if inRange '0' '5' a && b.isDigit then some (digitVal a * 10 + digitVal b, r2)
      else if a.isDigit then some (digitVal a, rest)
      else none
    | [] => if a.isDigit then some (digitVal a, []) else none

/-- `strptime` whitespace run: a literal space in the format compiles to
`\s+`. -/
def pWs (l : List Char) : Option (List Char) :=
  let ws := l.takeWhile isSpaceC
  if ws.isEmpty then none else some (l.drop ws.length)

/-- The compiled regex CPython uses for
`strptime(s, '%Y-%m-%d %H:%M:%S')`, including the check that the whole
string is consumed.  Each alternation boundary is deterministic, so the
ordered-alternative matcher coincides with `re` backtracking. -/
def strptimeRe (l : List Char) : Option DateTimeV := do
  let (y, r1) ← pYear l
  let r2 ← pLit '-' r1
  let (mo, r3) ← pMonth r2
  let r4 ← pLit '-' r3
  let (d, r5) ← pDay r4
  let r6 ← pWs r5
  let (h, r7) ← pHour r6
  let r8 ← pLit ':' r7
  let (mi, r9) ← pMin r8
  let r10 ← pLit ':' r9
  let (s, r11) ← pSec r10
  if r11.isEmpty then some ⟨y, mo, d, h, mi, s⟩ else none

/-- Gregorian leap-year rule used by `datetime`. -/
def isLeap (y : Nat) : Bool :=
  (y % 4 == 0 && y % 100 != 0) || y % 400 == 0

/-- Length of a month, as validated by the `datetime` constructor. -/
def daysInMonth (y m : Nat) : Nat :=
  if m == 2 then (if isLeap y then 29 else 28)
  else if m == 4 || m == 6 || m == 9 || m == 11 then 30
  else 31

/-- `datetime.strptime(s, '%Y-%m-%d %H:%M:%S')` as an optional value:
the regex match, plus the range checks of the `datetime` constructor
(minimum year 1, day within the month, seconds below 60; the other
fields are already bounded by the regex). -/
def strptime19 (l : List Char) : Option DateTimeV :=
  match strptimeRe l with
  | none => none
  | some dt =>
    if 1 ≤ dt.year ∧ 1 ≤ dt.day ∧ dt.day ≤ daysInMonth dt.year dt.month ∧
       dt.second ≤ 59 then some dt else none

example : strptime19 "2024-01-15 10:00:00".data = some ⟨2024, 1, 15, 10, 0, 0⟩ := by decide
example : strptime19 "2024-01-15  10:00:0".data = some ⟨2024, 1, 15, 10, 0, 0⟩ := by decide
example : strptime19 "2024-01-15   10:00:".data = none := by decide
example : strptime19 "2024-02-30 10:00:00".data = none := by decide
example : strptime19 "0000-01-15 10:00:00".data = none := by decide
example : strptime19 "2024-01-15 10:00:60".data = none := by decide
example : strptime19 "2024-13-15 10:00:00".data = none := by decide
example : strptime19 "2024-02-29 10:00:00".data = some ⟨2024, 2, 29, 10, 0, 0⟩ := by decide
example : strptime19 "2023-02-29 10:00:00".data = none := by decide
example : strptime19 "2024-01-15 10:00:00x".data = none := by decide

/-- Days before month `m` in year `y`. -/
def daysBeforeMonth (y m : Nat) : Nat :=
  ((List.range (m - 1)).map (fun i => daysInMonth y (i + 1))).sum

/-- Day count of a civil date from year 1 (proleptic Gregorian), the
linearization underlying `datetime` subtraction. -/
def daysFromCivil (y m d : Nat) : Nat :=
  (y - 1) * 365 + (y - 1) / 4 - (y - 1) / 100 + (y - 1) / 400 +
    daysBeforeMonth y m + (d - 1)

/-- A parsed timestamp as seconds on the civil timeline; the difference
of two such values is the `timedelta` printed by the script. -/
def dtSecs (dt : DateTimeV) : Int :=
  (daysFromCivil dt.year dt.month dt.day : Int) * 86400 +
    dt.hour * 3600 + dt.minute * 60 + dt.second

/-- The `try`-block of `analyze_plc_debug`: parse both endpoint
timestamps truncated to 19 characters; on any failure the duration is
omitted (`except: pass`). -/
def durationOf (a b : String) : Option Int :=
  match strptime19 (a.data.take 19), strptime19 (b.data.take 19) with
  | some x, some y => some (dtSecs y - dtSecs x)
  | _, _ => none

/-- Everything `analyze_plc_debug` prints, as structured data. -/
structure PlcReport where
  total : Nat
  firstTs : Option String
  lastTs : Option String
  duration : Option Int
  topDevices : List (String × Nat)
  topSignals : List (String × Nat)

/-- The report printed by `analyze_plc_debug`. -/
def plcReport (lines : List String) : PlcReport :=
  let st := plcScan lines
  { total := st.timestamps.length
    firstTs := st.timestamps.head?
    lastTs := st.timestamps.getLast?
    duration :=
      match st.timestamps.head?, st.timestamps.getLast? with
      | some a, some b => durationOf a b
      | _, _ => none
    topDevices := mostCommon 10 st.devices
    topSignals := mostCommon 10 st.signals }

/-- Python `str.strip()` (ASCII whitespace). -/
def pyStrip (l : List Char) : List Char :=
  ((l.dropWhile isSpaceC).reverse.dropWhile isSpaceC).reverse

/-- The report printed by `analyze_csv`. -/
structure CsvReport where
  columns : Nat
  headers : String
  dataRows : Nat

/-- `analyze_csv`: header split of the first line, row count excluding
the header line; prints nothing when the input is empty. -/
def analyze_csv (lines : List String) : Option CsvReport :=
  match lines with
  | [] => none
  | l0 :: _ =>
    let header := splitOnChar ',' (pyStrip l0.data)
    some { columns := header.length
           headers := joinSep ", " ((header.take 5).map String.mk) ++
             (if 5 < header.length then "..." else "")
           dataRows := lines.length - 1 }

/-- The report printed by `analyze_tab`. -/
structure TabReport where
  columns : Nat
  dataRows : Nat

/-- `analyze_tab`: column split of the first line, row count including
the header line. -/
def analyze_tab (lines : List String) : Option TabReport :=
  match lines with
  | [] => none
  | l0 :: _ =>
    let cols := splitOnChar '\t' (pyStrip l0.data)
    some { columns := cols.length
           dataRows := lines.length }

example : (analyze_csv ["a,b,c,d,e\n", "1,2,3,4,5\n"]).map CsvReport.dataRows = some 1 := by decide
example : (analyze_csv ["a,b,c,d,e\n", "1,2,3,4,5\n"]).map CsvReport.columns = some 5 := by decide
example : (analyze_tab ["a\tb\tc\td\n", "1\t2\t3\t4\n"]).map TabReport.dataRows = some 2 := by decide

/-- Two-digit zero-padded decimal rendering (`%m`, `%d`, `%H`, `%M`,
`%S` of `strftime`). -/
def pad2 (n : Nat) : List Char :=
  [Nat.digitChar (n / 10 % 10), Nat.digitChar (n % 10)]

/-- Three-digit rendering: `%f` truncated by `[:-3]` to milliseconds. -/
def pad3 (n : Nat) : List Char :=
  [Nat.digitChar (n / 100 % 10), Nat.digitChar (n / 10 % 10), Nat.digitChar (n % 10)]

/-- Four-digit zero-padded decimal rendering (`%Y` of `strftime`). -/
def pad4 (n : Nat) : List Char :=
  [Nat.digitChar (n / 1000 % 10), Nat.digitChar (n / 100 % 10),
   Nat.digitChar (n / 10 % 10), Nat.digitChar (n % 10)]

/-- The generator's timestamp
`current_time.strftime("%Y-%m-%d %H:%M:%S.%f")[:-3]`. -/
def genTimestamp (y mo d h mi s ms : Nat) : List Char :=
  pad4 y ++ '-' :: pad2 mo ++ '-' :: pad2 d ++ ' ' :: pad2 h ++
    ':' :: pad2 mi ++ ':' :: pad2 s ++ '.' :: pad3 ms

/-- One line emitted by `generate_large_log`:
`f"{timestamp} [Info] [{device}] [{signal}] ({signal_type}) : {val}\n"`. -/
def genLine (y mo d h mi s ms : Nat) (device signal ty val : String) : String :=
  String.mk (genTimestamp y mo d h mi s ms) ++ " [Info] [" ++ device ++ "] [" ++
    signal ++ "] (" ++ ty ++ ") : " ++ val ++ "\n"

example : genLine 2025 9 22 13 0 0 0 "SYSTEM/LINE1/DEV-101" "INPUT:Temperature" "Integer" "30"
    = "2025-09-22 13:00:00.000 [Info] [SYSTEM/LINE1/DEV-101] [INPUT:Temperature] (Integer) : 30\n" := by decide

/-- Which branch of `main` produced the output. -/
inductive MainOutcome where
  | usage : MainOutcome
  | readError : String → MainOutcome
  | analyzed : String → MainOutcome
deriving DecidableEq

/-- The `main` entry point of `analyze-log.py`: `sys.argv` is the
argument vector (program name first), and the outcome of
`read_log_file` is given as an exceptional or successful value.  The
result is the exit status paired with the branch taken. -/
def mainRun (argv : List String) (readResult : Except String (List String)) :
    Nat × MainOutcome :=
  if argv.length < 2 then (1, MainOutcome.usage)
  else
    match readResult with
    | Except.error e => (1, MainOutcome.readError e)
    | Except.ok lines => (0, MainOutcome.analyzed (detect_format lines))

example : mainRun ["analyze-log.py"] (Except.ok []) = (1, MainOutcome.usage) := by decide
example : mainRun ["analyze-log.py", "a.log"] (Except.error "no such file")
    = (1, MainOutcome.readError "no such file") := by decide
example : mainRun ["analyze-log.py", "a.log"] (Except.ok ["hello"])
    = (0, MainOutcome.analyzed "unknown") := by decide

/-! ## Theorems for the claims -/

/-- C1: `detect_format` always returns a tag from the closed six-element
set, and the rules are tried in the fixed priority order: in particular,
whenever the first-ten-line sample contains the date-time pattern, the
result is `plc_debug` even if the first line also contains a comma with
more than 3 comma-separated fields. -/
theorem detect_format_closed_set_and_priority :
    (∀ lines : List String, detect_format lines ∈
      ["plc_debug", "csv", "tab_separated", "mcs_amhs", "unknown", "empty"]) ∧
    (∀ (l0 : String) (rest : List String),
      searchDT (sampleOf (l0 :: rest)).data = true →
      l0.data.contains ',' = true → 3 < (splitOnChar ',' l0.data).length →
      detect_format (l0 :: rest) = "plc_debug") := by
  constructor
  · intro lines
    match lines with
    | [] => simp [detect_format]
    | l0 :: rest =>
      simp only [detect_format]
      split_ifs <;> simp
  · intro l0 rest h _ _
    simp [detect_format, h]

/-- Witness for C1 at a concrete input: a first line holding both a
date-time pattern and a comma with five comma-separated fields. -/
theorem detect_format_closed_set_and_priority_witness :
    detect_format ["2024-01-15 10:00:00,a,b,c,d"] ∈
      ["plc_debug", "csv", "tab_separated", "mcs_amhs", "unknown", "empty"] ∧
    detect_format ["2024-01-15 10:00:00,a,b,c,d"] = "plc_debug" :=
  ⟨detect_format_closed_set_and_priority.1 _,
   detect_format_closed_set_and_priority.2 "2024-01-15 10:00:00,a,b,c,d" []
     (by decide) (by decide) (by decide)⟩

/-- The two example lines of the spec's C2 test vector. -/
def c2Lines : List String :=
  ["2024-01-15 10:00:00 [Info] [DEV-1] [Temp] (Integer) : 30\n",
   "2024-01-15 10:00:01 [Info] [DEV-1] [Temp] (Integer) : 31\n"]

/-- C2 counterexample: on the spec's example lines the detected format is
`plc_debug`, but the record pattern matches no line (after the bracketed
`Info` group the pattern requires a word character, and the next
character is `[`), so the summarizer reports 0 entries — not 2 — and no
top device. -/
theorem c2_example_counterexample :
    detect_format c2Lines = "plc_debug" ∧
    ¬ ((plcScan c2Lines).timestamps.length = 2 ∧
       (mostCommon 10 (plcScan c2Lines).devices).head? = some ("DEV-1", 2)) := by
  constructor
  · decide
  · decide

/-- C2 amended: on the spec's example lines the detected format is
`plc_debug`, the reported entry count is 0, and the device ranking is
empty. -/
theorem c2_example_amended :
    detect_format c2Lines = "plc_debug" ∧
    (plcScan c2Lines).timestamps.length = 0 ∧
    mostCommon 10 (plcScan c2Lines).devices = [] := by
  refine ⟨by decide, by decide, by decide⟩

/-- C6: for every non-empty input, `analyze_csv` reports one data row
fewer than the number of lines, while `analyze_tab` reports a row count
equal to the number of lines, header included. -/
theorem csv_tab_row_count_asymmetry (l0 : String) (rest : List String) :
    (analyze_csv (l0 :: rest)).map CsvReport.dataRows = some ((l0 :: rest).length - 1) ∧
    (analyze_tab (l0 :: rest)).map TabReport.dataRows = some (l0 :: rest).length := by
  constructor <;> rfl

/-- C9: `main` exits with status 1 when the log-file argument is missing
(usage branch) and when reading the file fails (error branch), and with
status 0 on every other path. -/
theorem main_exit_codes (argv : List String) (res : Except String (List String)) :
    (argv.length < 2 → mainRun argv res = (1, MainOutcome.usage)) ∧
    (∀ e, 2 ≤ argv.length → res = Except.error e →
      mainRun argv res = (1, MainOutcome.readError e)) ∧
    (∀ lines, 2 ≤ argv.length → res = Except.ok lines → (mainRun argv res).1 = 0) := by
  refine ⟨?_, ?_, ?_⟩
  · intro h
    simp [mainRun, h]
  · intro e hlen hres
    have h : ¬ argv.length < 2 := by omega
    simp [mainRun, h, hres]
  · intro lines hlen hres
    have h : ¬ argv.length < 2 := by omega
    simp [mainRun, h, hres]

/-- Witness for C9: each of the three exit-code branches at a concrete
argument vector and read result. -/
theorem main_exit_codes_witness :
    mainRun ["analyze-log.py"] (Except.ok []) = (1, MainOutcome.usage) ∧
    mainRun ["analyze-log.py", "a.log"] (Except.error "boom")
      = (1, MainOutcome.readError "boom") ∧
    (mainRun ["analyze-log.py", "a.log"] (Except.ok ["x"])).1 = 0 :=
  ⟨(main_exit_codes ["analyze-log.py"] (Except.ok [])).1 (by decide),
   (main_exit_codes ["analyze-log.py", "a.log"] (Except.error "boom")).2.1 "boom"
     (by decide) rfl,
   (main_exit_codes ["analyze-log.py", "a.log"] (Except.ok ["x"])).2.2 ["x"]
     (by decide) rfl⟩

/-- A two-line input where the date appears at the end of the first line
and the time at the start of the second. -/
def c10Lines : List String := ["x 2024-01-15\n", "10:00:00 y\n"]

/-- C10: a non-empty input none of whose individual lines contains the
complete date-time pattern is still classified `plc_debug`, because the
detector joins the sampled lines with a newline and `\s+` matches across
it. -/
theorem detect_format_newline_spanning :
    c10Lines ≠ [] ∧
    (∀ l ∈ c10Lines, searchDT l.data = false) ∧
    detect_format c10Lines = "plc_debug" := by
  refine ⟨by decide, by decide, by decide⟩

/-- Structural characterization of the scanning loop: the timestamps are
the first capture groups of the matching lines in order, and each
frequency table is the counter of the corresponding capture-group
sequence, non-matching lines contributing nothing. -/
theorem plcScan_go (lines : List String) : ∀ st : PlcState,
    List.foldl plcStep st lines =
      ⟨st.timestamps ++ lines.filterMap (fun l => (findRecord l.data).map (fun m => m.1)),
       buildFrom st.devices (lines.filterMap (fun l => (findRecord l.data).map (fun m => m.2.1))),
       buildFrom st.signals (lines.filterMap (fun l => (findRecord l.data).map (fun m => m.2.2)))⟩ := by
  induction lines with
  | nil => intro st; simp [buildFrom]
  | cons l ls ih =>
    intro st
    simp only [List.foldl_cons, List.filterMap_cons]
    cases h : findRecord l.data with
    | none => simp [plcStep, h, ih]
    | some m =>
      obtain ⟨ts, dev, sig⟩ := m
      simp [plcStep, h, ih, buildFrom]

/-- `filterMap` through `Option.map` counts exactly the elements on
which the partial function succeeds. -/
theorem length_filterMap_isSome {α β : Type} (f : String → Option α) (g : α → β) :
    ∀ lines : List String,
      (lines.filterMap (fun l => (f l).map g)).length =
      (lines.filter (fun l => (f l).isSome)).length := by
  intro lines
  induction lines with
  | nil => rfl
  | cons l ls ih =>
    cases h : f l <;> simp [List.filterMap_cons, List.filter_cons, h, ih]

/-- C3: for every input, the entry count reported by `analyze_plc_debug`
equals exactly the number of lines matching the record pattern; the
timestamp sequence and both frequency tables are built only from the
matching lines. -/
theorem plc_total_eq_matching_lines (lines : List String) :
    (plcScan lines).timestamps.length =
      (lines.filter (fun l => (findRecord l.data).isSome)).length ∧
    (plcScan lines).timestamps =
      lines.filterMap (fun l => (findRecord l.data).map (fun m => m.1)) ∧
    (plcScan lines).devices =
      buildCounter (lines.filterMap (fun l => (findRecord l.data).map (fun m => m.2.1))) ∧
    (plcScan lines).signals =
      buildCounter (lines.filterMap (fun l => (findRecord l.data).map (fun m => m.2.2))) := by
  have h := plcScan_go lines ⟨[], [], []⟩
  refine ⟨?_, ?_, ?_, ?_⟩ <;>
    simp [plcScan, h, buildCounter, length_filterMap_isSome]

/-- Incrementing one key adds exactly one to the total of a counter. -/
theorem sumCounts_bump (k : String) : ∀ c, sumCounts (bump k c) = sumCounts c + 1 := by
  intro c
  induction c with
  | nil => rfl
  | cons p t ih =>
    obtain ⟨k', n⟩ := p
    by_cases h : k' = k <;> simp [bump, h, sumCounts] at ih ⊢ <;> omega

/-- Folding a key sequence into a counter adds its length to the total. -/
theorem sumCounts_buildFrom (ks : List String) :
    ∀ c, sumCounts (buildFrom c ks) = sumCounts c + ks.length := by
  induction ks with
  | nil => intro c; simp [buildFrom]
  | cons k kt ih =>
    intro c
    have : buildFrom c (k :: kt) = buildFrom (bump k c) kt := rfl
    rw [this, ih, sumCounts_bump]
    simp
    omega

/-- C4: after scanning any input, every device and signal count is
non-negative, and the counts of each frequency table sum to the number
of matched lines (the reported total). -/
theorem plc_counts_nonneg_and_sum_to_total (lines : List String) :
    (∀ p ∈ (plcScan lines).devices, 0 ≤ p.2) ∧
    (∀ p ∈ (plcScan lines).signals, 0 ≤ p.2) ∧
    sumCounts (plcScan lines).devices = (plcScan lines).timestamps.length ∧
    sumCounts (plcScan lines).signals = (plcScan lines).timestamps.length := by
  have h := plcScan_go lines ⟨[], [], []⟩
  have hdev : (plcScan lines).devices =
      buildFrom [] (lines.filterMap (fun l => (findRecord l.data).map (fun m => m.2.1))) := by
    rw [plcScan, h]
  have hsig : (plcScan lines).signals =
      buildFrom [] (lines.filterMap (fun l => (findRecord l.data).map (fun m => m.2.2))) := by
    rw [plcScan, h]
  have hts : (plcScan lines).timestamps =
      lines.filterMap (fun l => (findRecord l.data).map (fun m => m.1)) := by
    rw [plcScan, h]; rfl
  refine ⟨fun p _ => Nat.zero_le _, fun p _ => Nat.zero_le _, ?_, ?_⟩
  · rw [hdev, hts, sumCounts_buildFrom, length_filterMap_isSome,
      length_filterMap_isSome]
    simp [sumCounts]
  · rw [hsig, hts, sumCounts_buildFrom, length_filterMap_isSome,
      length_filterMap_isSome]
    simp [sumCounts]

/-- C7: with at least one matched line, the duration is present exactly
when both the first and the last timestamp, truncated to 19 characters,
parse under `%Y-%m-%d %H:%M:%S`; a parse failure only omits the duration
and leaves the rest of the report intact. -/
theorem plc_duration_iff_both_parse (lines : List String) (t u : String)
    (h1 : (plcScan lines).timestamps.head? = some t)
    (h2 : (plcScan lines).timestamps.getLast? = some u) :
    ((plcReport lines).duration.isSome ↔
      (strptime19 (t.data.take 19)).isSome ∧ (strptime19 (u.data.take 19)).isSome) ∧
    (plcReport lines).total = (plcScan lines).timestamps.length ∧
    (plcReport lines).firstTs = some t ∧
    (plcReport lines).lastTs = some u ∧
    (plcReport lines).topDevices = mostCommon 10 (plcScan lines).devices ∧
    (plcReport lines).topSignals = mostCommon 10 (plcScan lines).signals := by
  have hd : (plcReport lines).duration = durationOf t u := by
    simp [plcReport, h1, h2]
  refine ⟨?_, rfl, by simp [plcReport, h1], by simp [plcReport, h2], rfl, rfl⟩
  rw [hd]
  unfold durationOf
  cases hx : strptime19 (t.data.take 19) <;>
    cases hy : strptime19 (u.data.take 19) <;> simp

/-- A single matching line, used to instantiate C7's hypotheses. -/
def w7Lines : List String := ["2024-01-15 10:30:45.123 [DEV-001] SignalName = Value\n"]

/-- Witness for C7 at a concrete input whose endpoint timestamps parse. -/
theorem plc_duration_iff_both_parse_witness :
    (((plcReport w7Lines).duration.isSome ↔
      (strptime19 ("2024-01-15 10:30:45.123".data.take 19)).isSome ∧
      (strptime19 ("2024-01-15 10:30:45.123".data.take 19)).isSome) ∧
     (plcReport w7Lines).total = (plcScan w7Lines).timestamps.length ∧
     (plcReport w7Lines).firstTs = some "2024-01-15 10:30:45.123" ∧
     (plcReport w7Lines).lastTs = some "2024-01-15 10:30:45.123" ∧
     (plcReport w7Lines).topDevices = mostCommon 10 (plcScan w7Lines).devices ∧
     (plcReport w7Lines).topSignals = mostCommon 10 (plcScan w7Lines).signals) :=
  plc_duration_iff_both_parse w7Lines "2024-01-15 10:30:45.123" "2024-01-15 10:30:45.123"
    (by decide) (by decide)

/-- The keys of a counter after `bump`: unchanged for a known key, the
new key appended for an unknown one. -/
theorem bump_keys (k : String) : ∀ c : List (String × Nat),
    (bump k c).map Prod.fst =
      if k ∈ c.map Prod.fst then c.map Prod.fst else c.map Prod.fst ++ [k] := by
  intro c
  induction c with
  | nil => simp [bump]
  | cons p t ih =>
    obtain ⟨k', n⟩ := p
    by_cases h : k' = k
    · subst h
      simp [bump]
    · have h' : ¬ k = k' := fun e => h e.symm
      by_cases hm : k ∈ t.map Prod.fst <;>
        simp [bump, h, h', hm, ih]

/-- `bump` keeps the counter keys duplicate-free. -/
theorem keys_nodup_bump (k : String) (c : List (String × Nat))
    (h : (c.map Prod.fst).Nodup) : ((bump k c).map Prod.fst).Nodup := by
  rw [bump_keys]
  split
  · exact h
  · next hk => simp [List.nodup_append, h, hk]

/-- Folding keys into a counter keeps its keys duplicate-free. -/
theorem keys_nodup_buildFrom (ks : List String) :
    ∀ c, (c.map Prod.fst).Nodup → ((buildFrom c ks).map Prod.fst).Nodup := by
  induction ks with
  | nil => intro c h; exact h
  | cons k kt ih =>
    intro c h
    exact ih (bump k c) (keys_nodup_bump k c h)

/-- The device table of the scan has duplicate-free keys. -/
theorem keys_nodup_plcScan_devices (lines : List String) :
    (((plcScan lines).devices).map Prod.fst).Nodup := by
  have h := plcScan_go lines ⟨[], [], []⟩
  rw [plcScan, h]
  exact keys_nodup_buildFrom _ [] (by simp)

/-- Two elements at increasing positions form a two-element sublist. -/
theorem pair_sublist_of_getElem? {α : Type} {s : List α} {x y : α} {i j : Nat}
    (hij : i < j) (hx : s[i]? = some x) (hy : s[j]? = some y) :
    List.Sublist [x, y] s := by
  induction s generalizing i j with
  | nil => simp at hx
  | cons c t ih =>
    cases i with
    | zero =>
      simp only [List.getElem?_cons_zero, Option.some.injEq] at hx
      cases j with
      | zero => omega
      | succ j' =>
        simp only [List.getElem?_cons_succ] at hy
        subst hx
        exact List.cons_sublist_cons.2
          (List.singleton_sublist.2 (List.getElem?_mem hy))
    | succ i' =>
      cases j with
      | zero => omega
      | succ j' =>
        simp only [List.getElem?_cons_succ] at hx hy
        exact List.Sublist.cons c (ih (by omega) hx hy)

/-- A two-element sublist yields two increasing positions. -/
theorem getElem?_of_pair_sublist {α : Type} {s : List α} {x y : α}
    (h : List.Sublist [x, y] s) :
    ∃ i j : Nat, i < j ∧ s[i]? = some x ∧ s[j]? = some y := by
  induction s with
  | nil => simp at h
  | cons c t ih =>
    cases h with
    | cons _ h' =>
      obtain ⟨i, j, hij, hx, hy⟩ := ih h'
      exact ⟨i + 1, j + 1, by omega, by simpa using hx, by simpa using hy⟩
    | cons₂ _ h' =>
      obtain ⟨j, hj⟩ := List.getElem?_of_mem (List.singleton_sublist.1 h')
      exact ⟨0, j + 1, by omega, by simp, by simpa using hj⟩

/-- Membership in a prefix gives a position below the prefix length. -/
theorem getElem?_lt_of_mem_take {α : Type} {s : List α} {x : α} {n : Nat}
    (h : x ∈ s.take n) : ∃ i : Nat, i < n ∧ s[i]? = some x := by
  obtain ⟨i, hi⟩ := List.getElem?_of_mem h
  have hlen : i < (s.take n).length := by
    by_contra h'
    rw [List.getElem?_eq_none (by omega)] at hi
    exact Option.noConfusion hi
  have hn : i < n := by
    have := List.length_take n s
    omega
  refine ⟨i, hn, ?_⟩
  rw [← List.getElem?_take_of_lt hn]
  exact hi

/-- The signal table of the scan has duplicate-free keys. -/
theorem keys_nodup_plcScan_signals (lines : List String) :
    (((plcScan lines).signals).map Prod.fst).Nodup := by
  have h := plcScan_go lines ⟨[], [], []⟩
  rw [plcScan, h]
  exact keys_nodup_buildFrom _ [] (by simp)

/-- Stability of the top-10 ranking, for any counter with
duplicate-free keys: an entry pair with equal counts keeps its order in
the stable descending sort, and in the truncated top-10 list. -/
theorem mostCommon_stable_of_nodup (c : List (String × Nat)) (a b : String) (n : Nat)
    (hk : (c.map Prod.fst).Nodup)
    (h : List.Sublist [(a, n), (b, n)] c) :
    List.Sublist [(a, n), (b, n)] (sortByCountDesc c) ∧
    ((b, n) ∈ mostCommon 10 c →
      List.Sublist [(a, n), (b, n)] (mostCommon 10 c)) := by
  have hs : List.Sublist [(a, n), (b, n)] (sortByCountDesc c) :=
    List.pair_sublist_insertionSort (Nat.le_refl n) h
  refine ⟨hs, ?_⟩
  intro hmem
  obtain ⟨i, j, hij, hx, hy⟩ := getElem?_of_pair_sublist hs
  obtain ⟨j', hj', hy'⟩ := getElem?_lt_of_mem_take hmem
  have hperm : List.Perm (sortByCountDesc c) c :=
    List.perm_insertionSort _ _
  have hnk : ((sortByCountDesc c).map Prod.fst).Nodup :=
    ((hperm.map Prod.fst).nodup_iff).2 hk
  have hnd : (sortByCountDesc c).Nodup := hnk.of_map
  have hjlen : j < (sortByCountDesc c).length := by
    by_contra h'
    rw [List.getElem?_eq_none (by omega)] at hy
    exact Option.noConfusion hy
  have hjj : j = j' := List.getElem?_inj hjlen hnd (hy.trans hy'.symm)
  have hi10 : i < 10 := by omega
  show List.Sublist [(a, n), (b, n)] ((sortByCountDesc c).take 10)
  exact pair_sublist_of_getElem? hij
    (by rw [List.getElem?_take_of_lt hi10]; exact hx)
    (by rw [List.getElem?_take_of_lt (show j < 10 by omega)]; exact hy)

/-- C5: both the device ranking and the signal ranking are ordered by
descending count with ties broken by first encounter.  In either table,
if the entries of `A` and `B` carry equal final counts and `A` precedes
`B` (first-encounter order), then `A` still precedes `B` in the stable
descending ordering, and whenever `B` makes the reported top-10 list,
`A` appears in the list before it. -/
theorem mostCommon_stable_ordering (lines : List String) (a b : String) (n : Nat) :
    (List.Sublist [(a, n), (b, n)] (plcScan lines).devices →
      List.Sublist [(a, n), (b, n)] (sortByCountDesc (plcScan lines).devices) ∧
      ((b, n) ∈ mostCommon 10 (plcScan lines).devices →
        List.Sublist [(a, n), (b, n)] (mostCommon 10 (plcScan lines).devices))) ∧
    (List.Sublist [(a, n), (b, n)] (plcScan lines).signals →
      List.Sublist [(a, n), (b, n)] (sortByCountDesc (plcScan lines).signals) ∧
      ((b, n) ∈ mostCommon 10 (plcScan lines).signals →
        List.Sublist [(a, n), (b, n)] (mostCommon 10 (plcScan lines).signals))) :=
  ⟨mostCommon_stable_of_nodup ((plcScan lines).devices) a b n
     (keys_nodup_plcScan_devices lines),
   mostCommon_stable_of_nodup ((plcScan lines).signals) a b n
     (keys_nodup_plcScan_signals lines)⟩

/-- Two matching lines with distinct devices and distinct signals, used
to instantiate C5's hypotheses. -/
def w5Lines : List String :=
  ["2024-01-15 10:30:45 [DEV-A] SigX = 1\n",
   "2024-01-15 10:30:46 [DEV-B] SigY = 2\n"]

/-- Witness for C5: devices `DEV-A`/`DEV-B` and signals `SigX`/`SigY`
each end with equal counts, the first-encountered one precedes the other
in the respective ranking. -/
theorem mostCommon_stable_ordering_witness :
    (List.Sublist [("DEV-A", 1), ("DEV-B", 1)] (sortByCountDesc (plcScan w5Lines).devices) ∧
     (("DEV-B", 1) ∈ mostCommon 10 (plcScan w5Lines).devices →
       List.Sublist [("DEV-A", 1), ("DEV-B", 1)] (mostCommon 10 (plcScan w5Lines).devices))) ∧
    (List.Sublist [("SigX", 1), ("SigY", 1)] (sortByCountDesc (plcScan w5Lines).signals) ∧
     (("SigY", 1) ∈ mostCommon 10 (plcScan w5Lines).signals →
       List.Sublist [("SigX", 1), ("SigY", 1)] (mostCommon 10 (plcScan w5Lines).signals))) :=
  ⟨(mostCommon_stable_ordering w5Lines "DEV-A" "DEV-B" 1).1 (by
      have e : (plcScan w5Lines).devices = [("DEV-A", 1), ("DEV-B", 1)] := by decide
      rw [e]),
   (mostCommon_stable_ordering w5Lines "SigX" "SigY" 1).2 (by
      have e : (plcScan w5Lines).signals = [("SigX", 1), ("SigY", 1)] := by decide
      rw [e])⟩

/-- A single matching line, used to instantiate C4's hypotheses. -/
def w4Lines : List String := ["2024-01-15 10:30:45 [DEV-001] Sig = 1\n"]

/-- `Nat.digitChar` of a reduced digit is an ASCII digit. -/
theorem digitChar_mod_isDigit (n : Nat) : (Nat.digitChar (n % 10)).isDigit = true := by
  have h : n % 10 < 10 := Nat.mod_lt _ (by omega)
  generalize n % 10 = k at h
  interval_cases k <;> decide

/-- `Nat.digitChar` of a reduced digit is not whitespace. -/
theorem digitChar_mod_not_space (n : Nat) : isSpaceC (Nat.digitChar (n % 10)) = false := by
  have h : n % 10 < 10 := Nat.mod_lt _ (by omega)
  generalize n % 10 = k at h
  interval_cases k <;> decide

/-- The generator's timestamp matches the detector's date-time pattern at
position 0, whatever follows it. -/
theorem matchDTAt_genTimestamp (y mo d h mi s ms : Nat) (ext : List Char) :
    matchDTAt (genTimestamp y mo d h mi s ms ++ ext) = true := by
  unfold genTimestamp pad4 pad2 pad3
  simp only [List.cons_append, List.nil_append, List.append_assoc]
  simp [matchDTAt, matchTimeAt, List.takeWhile, List.dropWhile,
    digitChar_mod_isDigit, digitChar_mod_not_space,
    (by decide : isSpaceC ' ' = true)]

/-- A match at position 0 makes the search succeed. -/
theorem searchDT_of_matchDTAt {l : List Char} (h : matchDTAt l = true) :
    searchDT l = true := by
  cases l with
  | nil => simp [matchDTAt] at h
  | cons c t => simp [searchDT, h]

/-- C8: every generator line starts with a `YYYY-MM-DD HH:MM:SS` shape,
so any non-empty input starting with a generated line is classified
`plc_debug` by the detector. -/
theorem generator_lines_detected_plc (y mo d h mi s ms : Nat)
    (device signal ty val : String) (rest : List String) :
    detect_format (genLine y mo d h mi s ms device signal ty val :: rest) = "plc_debug" := by
  have hdata : ∃ tail : List Char,
      (genLine y mo d h mi s ms device signal ty val).data =
        genTimestamp y mo d h mi s ms ++ tail := by
    refine ⟨(" [Info] [" ++ device ++ "] [" ++ signal ++ "] (" ++ ty ++
      ") : " ++ val ++ "\n").data, ?_⟩
    unfold genLine
    simp [String.data_append, List.append_assoc]
  have hsamp : ∃ ext : List Char,
      (sampleOf (genLine y mo d h mi s ms device signal ty val :: rest)).data =
        (genLine y mo d h mi s ms device signal ty val).data ++ ext := by
    unfold sampleOf
    rw [List.take_succ_cons]
    cases rest.take 9 with
    | nil => exact ⟨[], by simp [joinSep]⟩
    | cons r rs =>
      refine ⟨'\n' :: (joinSep "\n" (r :: rs)).data, ?_⟩
      simp [joinSep, String.data_append, List.append_assoc]
  obtain ⟨tail, htail⟩ := hdata
  obtain ⟨ext, hext⟩ := hsamp
  have hsearch : searchDT
      (sampleOf (genLine y mo d h mi s ms device signal ty val :: rest)).data = true := by
    rw [hext, htail, List.append_assoc]
    exact searchDT_of_matchDTAt (matchDTAt_genTimestamp y mo d h mi s ms _)
  simp [detect_format, hsearch]

/-- Witness for C4 at a concrete input with one matching line. -/
theorem plc_counts_nonneg_and_sum_to_total_witness :
    (0 ≤ (("DEV-001", 1) : String × Nat).2) ∧
    sumCounts (plcScan w4Lines).devices = (plcScan w4Lines).timestamps.length :=
  ⟨(plc_counts_nonneg_and_sum_to_total w4Lines).1 ("DEV-001", 1) (by decide),
   (plc_counts_nonneg_and_sum_to_total w4Lines).2.2.1⟩
